import Mathlib

/-!
Verification of the RetailCRM proxy service's translation layer.

The definitions below are a shallow embedding of the Python sources:
  - app/api/v1/models.py          (pydantic models: ClientBase / ClientCreate)
  - app/api/v1/endpoints/clients.py (RetailCRMService, build_customer_filters,
                                     get_clients, create_client)

JSON payloads are modelled by an inductive `Json` type; the upstream CRM is
modelled by an `UpstreamOutcome` value (one per request: the service layer
performs exactly one outbound HTTP call per local operation, so each handler
is a function of a single outcome).
-/

namespace RetailCRM

/-- JSON values, as exchanged with the CRM and produced by the handlers.
Python `None` is `null`, dicts are `obj` (ordered association lists with
unique keys, as produced by dict literals in the source). -/
inductive Json where
  | null : Json
  | bool : Bool → Json
  | num : Int → Json
  | str : String → Json
  | arr : List Json → Json
  | obj : List (String × Json) → Json

/-- Lookup in the field list of a JSON object (Python `dict.get(k)`). -/
def lookupField : List (String × Json) → String → Option Json
  | [], _ => none
  | (k1, v) :: rest, k => if k1 = k then some v else lookupField rest k

/-- Python `d.get(k)`: `None` when the key is missing or the value is not a dict. -/
def Json.get (j : Json) (k : String) : Option Json :=
  match j with
  | .obj fields => lookupField fields k
  | _ => none

/-- Python `d.get(k, default)`. -/
def Json.getD (j : Json) (k : String) (d : Json) : Json :=
  (j.get k).getD d

/-- Whether an object carries the given key. -/
def Json.hasKey (j : Json) (k : String) : Bool :=
  (j.get k).isSome

/-- Python truthiness of a JSON value (`bool(x)` for the values concerned). -/
def Json.truthy : Json → Bool
  | .null => false
  | .bool b => b
  | .num n => n != 0
  | .str s => s != ""
  | .arr xs => !xs.isEmpty
  | .obj fs => !fs.isEmpty

/-- Truthiness of `d.get(k)`: a missing key (`None`) is falsy. -/
def truthyOpt : Option Json → Bool
  | none => false
  | some j => j.truthy

/-- Python `len(x)` on a JSON value: defined for lists, strings and dicts,
`none` where Python `len` raises `TypeError`. -/
def pyLen : Json → Option Nat
  | .arr xs => some xs.length
  | .str s => some s.length
  | .obj fs => some fs.length
  | _ => none

/-- A single-quote character, used by the Python `repr` rendering below. -/
def squote : String := String.singleton (Char.ofNat 39)

mutual

/-- Python `repr` of a JSON value (used by `str` on non-string values, e.g.
when an f-string interpolates a dict); string escaping of exotic characters
is not reproduced, which no payload in this development exercises. -/
def Json.pyRepr : Json → String
  | .null => "None"
  | .bool true => "True"
  | .bool false => "False"
  | .num n => toString n
  | .str s => squote ++ s ++ squote
  | .arr xs => "[" ++ pyReprList xs ++ "]"
  | .obj fs => "\x7b" ++ pyReprFields fs ++ "\x7d"

/-- Comma-separated `repr` of list elements. -/
def pyReprList : List Json → String
  | [] => ""
  | [x] => Json.pyRepr x
  | x :: y :: rest => Json.pyRepr x ++ ", " ++ pyReprList (y :: rest)

/-- Comma-separated `repr` of dict entries. -/
def pyReprFields : List (String × Json) → String
  | [] => ""
  | [(k, v)] => squote ++ k ++ squote ++ ": " ++ Json.pyRepr v
  | (k, v) :: y :: rest =>
      squote ++ k ++ squote ++ ": " ++ Json.pyRepr v ++ ", " ++ pyReprFields (y :: rest)

end

/-- Python `str(x)` of a JSON value: the string itself for strings,
`repr` otherwise (as in an f-string interpolation). -/
def Json.pyStr : Json → String
  | .str s => s
  | j => j.pyRepr

/-! ## Validation layer (app/api/v1/models.py) -/

/-- Characters stripped by Python `str.strip()` (the ASCII whitespace set;
every input in this development is ASCII). -/
def isPySpace (c : Char) : Bool :=
  c == ' ' || c == '\t' || c == '\n' || c == '\r' || c == Char.ofNat 11 || c == Char.ofNat 12

/-- Python `s.strip()`: remove leading and trailing whitespace. -/
def pyStrip (s : String) : String :=
  String.mk (((s.data.dropWhile isPySpace).reverse.dropWhile isPySpace).reverse)

/-- The character class `[1-9]`. -/
def isNonzeroDigit (c : Char) : Bool := c.isDigit && c != '0'

/-- The part `[1-9]\d{1,14}` of the phone pattern, on a character list. -/
def phoneDigits : List Char → Bool
  | c :: rest =>
      isNonzeroDigit c && rest.all Char.isDigit &&
      decide (1 ≤ rest.length) && decide (rest.length ≤ 14)
  | [] => false

/-- The pydantic field constraint on `phone` from `ClientBase`: the full-match
regular expression `^\+?[1-9]\d\x7b1,14\x7d$`. -/
def matchesPhonePattern (s : String) : Bool :=
  match s.data with
  | c :: rest => if c = '+' then phoneDigits rest else phoneDigits (c :: rest)
  | [] => false

/-- The cleaning step of `ClientCreate.validate_phone`:
`join(c for c in v if c.isdigit() or (c == chr(43) and v.index(c) == 0))`.
`v.index(c)` is the index of the first occurrence of `c` in `v`, so for
`c` equal to the plus sign the condition holds exactly when `v` starts
with a plus, in which case every plus sign of `v` is kept. Python
`c.isdigit()` is Unicode-aware; as with the pattern, the ASCII digit class
suffices for every input in this development. -/
def cleanPhone (v : String) : String :=
  if v.data.head? = some '+' then
    String.mk (v.data.filter (fun c => c.isDigit || c == '+'))
  else
    String.mk (v.data.filter Char.isDigit)

/-- `ClientCreate.validate_phone` (the `field_validator`, which pydantic runs
after the field constraints): `None` passes through; otherwise the cleaned
string is returned, and an empty cleaning result raises. -/
def validate_phone : Option String → Except String (Option String)
  | none => .ok none
  | some v =>
      if cleanPhone v = "" then .error "Неверный формат телефона"
      else .ok (some (cleanPhone v))

/-- The full pipeline pydantic runs on the `phone` field: the `pattern`
constraint declared on `ClientBase.phone` first (it applies to present
values only), then `validate_phone`. -/
def phoneField (v : Option String) : Except String (Option String) :=
  match v with
  | none => validate_phone none
  | some s =>
      if matchesPhonePattern s then validate_phone (some s)
      else .error "String should match pattern"

/-- `ClientCreate.validate_first_name`: raises when the stripped value is
empty, returns the stripped value otherwise. -/
def validate_first_name (v : String) : Except String String :=
  if pyStrip v = "" then .error "Имя не может быть пустым"
  else .ok (pyStrip v)

/-- The pipeline pydantic runs on `first_name`: required field,
`min_length=1`, `max_length=100`, then `validate_first_name`. -/
def firstNameField : Option String → Except String String
  | none => .error "Field required"
  | some s =>
      if s.length < 1 then .error "String should have at least 1 character"
      else if 100 < s.length then .error "String should have at most 100 characters"
      else validate_first_name s

/-- The pipeline pydantic runs on `last_name`: optional, `max_length=100`. -/
def lastNameField : Option String → Except String (Option String)
  | none => .ok none
  | some s =>
      if 100 < s.length then .error "String should have at most 100 characters"
      else .ok (some s)

/-- Modelled from the spec: `email` is validated by pydantic's `EmailStr`,
whose checker lives in the external `email-validator` package, not in this
repository. The spec requires "email matches a valid email syntax (fails
with validation_error if malformed or absent)"; this model accepts exactly
the strings with one at-sign, a non-empty local part, and a non-empty domain
that contains an inner dot and no whitespace — enough to accept every email
appearing in the spec and to reject the malformed shapes it names. -/
def isValidEmail (s : String) : Bool :=
  match s.data.splitOn '@' with
  | [lp, dom] =>
      !lp.isEmpty && !dom.isEmpty && dom.contains '.' &&
      dom.head? != some '.' && dom.getLast? != some '.' &&
      (lp ++ dom).all (fun c => !isPySpace c)
  | _ => false

/-- The pipeline pydantic runs on `email`: required field, `EmailStr`. -/
def emailField : Option String → Except String String
  | none => .error "Field required"
  | some s =>
      if isValidEmail s then .ok s
      else .error "Value is not a valid email address"

deriving instance DecidableEq for Except

/-- Raw inbound creation data, before validation (each field may be absent). -/
structure RawClient where
  first_name : Option String
  last_name : Option String
  email : Option String
  phone : Option String
  deriving Repr, DecidableEq

/-- A validated `ClientCreate` value (app/api/v1/models.py): the handler only
ever sees values produced by `validateClientCreate`. -/
structure ClientCreate where
  first_name : String
  last_name : Option String
  email : String
  phone : Option String
  deriving Repr, DecidableEq

/-- Validation of the `ClientCreate` pydantic model: every field pipeline
must succeed (pydantic collects all field errors; any failure makes the
request fail with HTTP 422 before the handler body runs, so the first
failing field's message stands in for the error list). -/
def validateClientCreate (raw : RawClient) : Except String ClientCreate := do
  let fn ← firstNameField raw.first_name
  let ln ← lastNameField raw.last_name
  let em ← emailField raw.email
  let ph ← phoneField raw.phone
  .ok ⟨fn, ln, em, ph⟩

/-! ## Service layer (RetailCRMService in app/api/v1/endpoints/clients.py) -/

/-- The `customer_data` dict built by `RetailCRMService.create_customer` and
serialized into the `customer` form field: `firstName`, `lastName` and
`email` are set unconditionally (`lastName` becomes JSON `null` when
`last_name` is `None`), and `phones` is appended only for a truthy phone. -/
def customerPayload (c : ClientCreate) : Json :=
  .obj ([("firstName", .str c.first_name),
         ("lastName", match c.last_name with | some s => .str s | none => .null),
         ("email", .str c.email)] ++
        (match c.phone with
         | some p => if p ≠ "" then [("phones", .arr [.obj [("number", .str p)]])] else []
         | none => []))

/-- The outcome of the single outbound HTTP call a handler performs:
a timeout, or a response with a status code and a body (`none` when the
body is not valid JSON, in which case `response.json()` raises
`json.JSONDecodeError`). -/
inductive UpstreamOutcome where
  | timeout : UpstreamOutcome
  | response : Nat → Option Json → UpstreamOutcome

/-- `RetailCRMClientError` (the custom exception of the service layer). -/
structure RetailCRMClientError where
  message : Json
  status_code : Nat
  details : Json

/-- What a service-layer call produces: the parsed body, a raised
`RetailCRMClientError`, or an exception the service layer does not catch
(`httpx.HTTPStatusError` from `raise_for_status`, or `json.JSONDecodeError`
in `fetch_customers`, which only catches `httpx.TimeoutException`). -/
inductive ServiceResult where
  | ok : Json → ServiceResult
  | crmError : RetailCRMClientError → ServiceResult
  | uncaught : ServiceResult

/-- Whether a status code is a success for `response.raise_for_status()`. -/
def is2xx (st : Nat) : Bool := decide (200 ≤ st) && decide (st < 300)

/-- `RetailCRMService.create_customer`, as a function of the validated input
and the outcome of its one outbound call. `raise_for_status` runs before
`response.json()`, so a non-2xx status escapes uncaught regardless of the
body; a domain failure (`success` falsy) raises `RetailCRMClientError` with
the response's (net 2xx) status code; a timeout and an invalid JSON body
are caught and re-raised as `RetailCRMClientError` with statuses 504 and
500. -/
def create_customer (c : ClientCreate) (o : UpstreamOutcome) : ServiceResult :=
  match o with
  | .timeout => .crmError ⟨.str "Таймаут соединения с RetailCRM", 504, .obj []⟩
  | .response st body =>
      if is2xx st then
        match body with
        | none => .crmError ⟨.str "Ошибка форматирования данных", 500, .obj []⟩
        | some j =>
            if truthyOpt (j.get "success") then .ok j
            else .crmError ⟨j.getD "errorMsg" (.str "Неизвестная ошибка создания"), st,
                            .obj [("errors", j.getD "errors" (.arr []))]⟩
      else .uncaught

/-- `RetailCRMService.fetch_customers`, as a function of the outcome of its
one outbound call. Unlike `create_customer` it has no
`json.JSONDecodeError` handler, so an invalid JSON body escapes uncaught;
its domain failure carries no details. -/
def fetch_customers (o : UpstreamOutcome) : ServiceResult :=
  match o with
  | .timeout => .crmError ⟨.str "Таймаут соединения с RetailCRM", 504, .obj []⟩
  | .response st body =>
      if is2xx st then
        match body with
        | none => .uncaught
        | some j =>
            if truthyOpt (j.get "success") then .ok j
            else .crmError ⟨j.getD "errorMsg" (.str "Неизвестная ошибка получения"), st, .obj []⟩
      else .uncaught

/-! ## Filter construction and outbound query parameters -/

/-- A calendar date, as FastAPI parses the `created_at` query parameter.
A Python `date` object is always truthy. -/
structure Date where
  year : Nat
  month : Nat
  day : Nat
  deriving Repr, DecidableEq

/-- Zero-pad a number to the given width. -/
def padNum (width n : Nat) : String :=
  let s := toString n
  String.mk (List.replicate (width - s.length) '0') ++ s

/-- Python `date.isoformat()`: `YYYY-MM-DD`. -/
def Date.isoformat (d : Date) : String :=
  padNum 4 d.year ++ "-" ++ padNum 2 d.month ++ "-" ++ padNum 2 d.day

/-- One `if value:` guard of `build_customer_filters`: a string filter is
added only when it is truthy, i.e. present and non-empty. -/
def optFilter (key : String) (s : Option String) : List (String × String) :=
  match s with
  | some v => if v ≠ "" then [(key, v)] else []
  | none => []

/-- `build_customer_filters`: `name` and `email` are added only when truthy
(present and non-empty), `created_at` expands to `dateFrom` and `dateTo`
both equal to its ISO form. -/
def build_customer_filters (name email : Option String) (created_at : Option Date) :
    List (String × String) :=
  optFilter "name" name ++ optFilter "email" email ++
  (match created_at with
   | some d => [("dateFrom", d.isoformat), ("dateTo", d.isoformat)]
   | none => [])

/-- The query parameters `fetch_customers` sends: `limit` and `page`, then
one parameter per filter entry, renamed to the bracketed form. Every filter
value is non-`None` by construction of `build_customer_filters`. -/
def fetchParams (filters : List (String × String)) (limit page : Nat) :
    List (String × String) :=
  [("limit", toString limit), ("page", toString page)] ++
  filters.map (fun kv => ("filter[" ++ kv.1 ++ "]", kv.2))

/-- The query parameters the `get_clients` handler emits on its single
outbound call: `fetch_customers` is invoked with
`build_customer_filters(name, email, created_at)` and the page arguments. -/
def listingRequestParams (name email : Option String) (created_at : Option Date)
    (limit page : Nat) : List (String × String) :=
  fetchParams (build_customer_filters name email created_at) limit page

/-! ## Route handlers (get_clients and create_client) -/

/-- A local HTTP response: a success body, a FastAPI request-validation
failure (HTTP 422, raised before the handler body runs), or a raised
`HTTPException` with its status and detail object. -/
inductive Response where
  | ok : Nat → Json → Response
  | validationError : String → Response
  | httpError : Nat → Json → Response

/-- The HTTP status carried by a local response. -/
def Response.statusOf : Response → Nat
  | .ok st _ => st
  | .validationError _ => 422
  | .httpError st _ => st

/-- Whether a response is a FastAPI request-validation failure. -/
def Response.isValidationFailure : Response → Bool
  | .validationError _ => true
  | _ => false

/-- The `get_clients` handler: builds filters, performs the single listing
call, and wraps the result. A `RetailCRMClientError` is translated 1:1 into
a `retailcrm_error` envelope with the exception's status; any other
exception (uncaught service-layer errors, or a `TypeError` from `len` on a
non-sized `customers` value) yields `internal_error` 500. -/
def get_clients (name email : Option String) (created_at : Option Date)
    (limit page : Nat) (o : UpstreamOutcome) : Response :=
  match fetch_customers o with
  | .ok result =>
      match pyLen (result.getD "customers" (.arr [])) with
      | some n =>
          .ok 200 (.obj [("success", .bool true),
                         ("data", .obj [("customers", result.getD "customers" (.arr [])),
                                        ("pagination", result.getD "pagination" (.obj []))]),
                         ("meta", .obj [("total", .num n), ("page", .num page),
                                        ("limit", .num limit)])])
      | none =>
          .httpError 500 (.obj [("error", .str "internal_error"),
                                ("message", .str "Внутренняя ошибка сервера")])
  | .crmError e =>
      .httpError e.status_code (.obj [("error", .str "retailcrm_error"),
                                      ("message", e.message),
                                      ("details", e.details)])
  | .uncaught =>
      .httpError 500 (.obj [("error", .str "internal_error"),
                            ("message", .str "Внутренняя ошибка сервера")])

/-- The body of `create_client` after pydantic validation succeeded: the
in-handler required-fields check, the single creation call, and outcome
translation. The `retailcrm_error` message is the f-string
`"Ошибка при создании клиента: " + str(e.message)`. -/
def create_client_validated (c : ClientCreate) (o : UpstreamOutcome) : Response :=
  if c.email = "" ∨ c.first_name = "" then
    .httpError 422 (.obj [("error", .str "validation_error"),
                          ("message", .str "Email и имя являются обязательными полями")])
  else
    match create_customer c o with
    | .ok result =>
        .ok 201 (.obj [("success", .bool true),
                       ("data", .obj [("customer_id", result.getD "id" .null),
                                      ("message", .str "Клиент успешно создан")]),
                       ("meta", .obj [("retailcrm_success", .bool true),
                                      ("customer_email", .str c.email)])])
    | .crmError e =>
        .httpError e.status_code
          (.obj [("error", .str "retailcrm_error"),
                 ("message", .str ("Ошибка при создании клиента: " ++ e.message.pyStr)),
                 ("details", e.details)])
    | .uncaught =>
        .httpError 500 (.obj [("error", .str "internal_error"),
                              ("message", .str "Внутренняя ошибка при создании клиента")])

/-- The `create_client` endpoint: pydantic validation of the body (failure
is a FastAPI 422 before the handler runs), then the handler body. -/
def create_client (raw : RawClient) (o : UpstreamOutcome) : Response :=
  match validateClientCreate raw with
  | .error e => .validationError e
  | .ok c => create_client_validated c o

/-! ## Concrete values used in the statements -/

/-- Whether a validation pipeline accepted its input. -/
def accepts {α : Type} : Except String α → Bool
  | .ok _ => true
  | .error _ => false

/-- The round-trip input named by the spec:
first_name "A", email "a@b.com", phone "+1 234-567". -/
def rawRoundtrip : RawClient := ⟨some "A", none, some "a@b.com", some "+1 234-567"⟩

/-- The round-trip input with the phone already in pattern form. -/
def rawRoundtripClean : RawClient := ⟨some "A", none, some "a@b.com", some "+1234567"⟩

/-- The validated client produced from `rawRoundtripClean`. -/
def clientRoundtrip : ClientCreate := ⟨"A", none, "a@b.com", some "+1234567"⟩

/-- The customer object the spec's round-trip property claims is emitted
(no `lastName` key). -/
def claimedRoundtripPayload : Json :=
  .obj [("firstName", .str "A"), ("email", .str "a@b.com"),
        ("phones", .arr [.obj [("number", .str "+1234567")]])]

/-- The response of the in-handler required-fields branch of `create_client`. -/
def requiredFieldsResponse : Response :=
  .httpError 422 (.obj [("error", .str "validation_error"),
                        ("message", .str "Email и имя являются обязательными полями")])

/-! ## Claim theorems -/

/-- C1 counterexample: the input named by the claim is rejected by validation
(the phone "+1 234-567" fails the pattern constraint), so it produces no
outbound object at all; and for the same input with the phone already
normalized, the emitted `customer` object carries a `lastName` key (bound
to JSON null) even though `last_name` is absent, so it differs from the
object the claim requires. -/
theorem C1_counterexample :
    accepts (validateClientCreate rawRoundtrip) = false ∧
    validateClientCreate rawRoundtripClean = .ok clientRoundtrip ∧
    clientRoundtrip.last_name = none ∧
    (customerPayload clientRoundtrip).hasKey "lastName" = true ∧
    claimedRoundtripPayload.hasKey "lastName" = false ∧
    customerPayload clientRoundtrip ≠ claimedRoundtripPayload := by
  refine ⟨rfl, rfl, rfl, rfl, rfl, ?_⟩
  intro h
  have h2 : (customerPayload clientRoundtrip).hasKey "lastName" =
      claimedRoundtripPayload.hasKey "lastName" := by rw [h]
  rw [show (customerPayload clientRoundtrip).hasKey "lastName" = true from rfl,
      show claimedRoundtripPayload.hasKey "lastName" = false from rfl] at h2
  exact Bool.noConfusion h2

/-- C1 amended: the outbound object serialized into the `customer` form field
always contains the key `lastName` (bound to JSON null when last_name is
absent); for the input with first_name "A", email "a@b.com" and the
pattern-conforming phone "+1234567", the `customer` field parsed as JSON
equals the claimed object extended with `lastName: null`; the claim's
original input, whose phone is "+1 234-567", is rejected by validation
before any outbound call. -/
theorem C1_amended :
    (∀ c : ClientCreate, (customerPayload c).hasKey "lastName" = true) ∧
    validateClientCreate rawRoundtripClean = .ok clientRoundtrip ∧
    customerPayload clientRoundtrip =
      .obj [("firstName", .str "A"), ("lastName", .null), ("email", .str "a@b.com"),
            ("phones", .arr [.obj [("number", .str "+1234567")]])] ∧
    accepts (validateClientCreate rawRoundtrip) = false := by
  refine ⟨?_, rfl, rfl, rfl⟩
  intro c
  simp [customerPayload, Json.hasKey, Json.get, lookupField]

/-- The 404 upstream reply used against C2. -/
def outcome404 : UpstreamOutcome := .response 404 (some (.obj []))

/-- C2 counterexample: an upstream 404 (not a domain failure) is surfaced by
both endpoints as `internal_error` with HTTP 500 — the upstream status is
not propagated and the error kind is not `retailcrm_error`. -/
theorem C2_counterexample :
    get_clients none none none 20 1 outcome404 =
      .httpError 500 (.obj [("error", .str "internal_error"),
                            ("message", .str "Внутренняя ошибка сервера")]) ∧
    (get_clients none none none 20 1 outcome404).statusOf ≠ 404 ∧
    create_client_validated clientRoundtrip outcome404 =
      .httpError 500 (.obj [("error", .str "internal_error"),
                            ("message", .str "Внутренняя ошибка при создании клиента")]) := by
  exact ⟨rfl, by decide, rfl⟩

/-- C2 amended: for every upstream response with a non-2xx HTTP status, the
`httpx.HTTPStatusError` raised by `raise_for_status` is caught by neither
service-layer handler nor the `RetailCRMClientError` clause, so both
endpoints reply `internal_error` with HTTP 500: the upstream status is
replaced by a generic 500, not propagated. -/
theorem C2_amended (st : Nat) (body : Option Json) (name email : Option String)
    (d : Option Date) (limit page : Nat) (c : ClientCreate)
    (hst : is2xx st = false) (he : c.email ≠ "") (hf : c.first_name ≠ "") :
    get_clients name email d limit page (.response st body) =
      .httpError 500 (.obj [("error", .str "internal_error"),
                            ("message", .str "Внутренняя ошибка сервера")]) ∧
    create_client_validated c (.response st body) =
      .httpError 500 (.obj [("error", .str "internal_error"),
                            ("message", .str "Внутренняя ошибка при создании клиента")]) := by
  constructor
  · simp [get_clients, fetch_customers, hst]
  · simp [create_client_validated, create_customer, hst, he, hf]

/-- C2 witness: the amended statement applied to an upstream 404. -/
theorem C2_witness :
    get_clients none none none 20 1 (.response 404 (some (.obj []))) =
      .httpError 500 (.obj [("error", .str "internal_error"),
                            ("message", .str "Внутренняя ошибка сервера")]) ∧
    create_client_validated clientRoundtrip (.response 404 (some (.obj []))) =
      .httpError 500 (.obj [("error", .str "internal_error"),
                            ("message", .str "Внутренняя ошибка при создании клиента")]) :=
  C2_amended 404 (some (.obj [])) none none none 20 1 clientRoundtrip
    (by decide) (by decide) (by decide)

/-- Every list all of whose elements satisfy `p` is left unchanged by
`filter p`. -/
theorem filter_eq_self_of_all {p : Char → Bool} {l : List Char} (h : l.all p = true) :
    l.filter p = l := by
  induction l with
  | nil => rfl
  | cons x xs ih =>
      simp only [List.all_cons, Bool.and_eq_true] at h
      simp [List.filter_cons, h.1, ih h.2]

/-- A character in the class `[1-9]` is a digit. -/
theorem isDigit_of_nonzero {c : Char} (h : isNonzeroDigit c = true) : c.isDigit = true := by
  simp only [isNonzeroDigit, Bool.and_eq_true] at h
  exact h.1

/-- On a string matching the phone pattern, the cleaning step of
`validate_phone` is the identity: every character is a digit or a leading
plus sign, all of which are kept. -/
theorem cleanPhone_id_of_pattern : ∀ s, matchesPhonePattern s = true → cleanPhone s = s := by
  intro s h
  obtain ⟨cs⟩ := s
  cases cs with
  | nil => exact absurd h (by decide)
  | cons c rest =>
      replace h : (if c = '+' then phoneDigits rest else phoneDigits (c :: rest)) = true := h
      by_cases hc : c = '+'
      · subst hc
        rw [if_pos rfl] at h
        cases rest with
        | nil => exact absurd h (by decide)
        | cons d ds =>
            simp only [phoneDigits, Bool.and_eq_true] at h
            obtain ⟨⟨⟨hd, hds⟩, _⟩, _⟩ := h
            show String.mk (List.filter (fun c => c.isDigit || c == '+') ('+' :: d :: ds)) =
              String.mk ('+' :: d :: ds)
            congr 1
            apply filter_eq_self_of_all
            rw [List.all_eq_true]
            intro a ha
            simp only [List.mem_cons] at ha
            rcases ha with rfl | rfl | ha
            · simp
            · simp [isDigit_of_nonzero hd]
            · simp [List.all_eq_true.mp hds a ha]
      · rw [if_neg hc] at h
        simp only [phoneDigits, Bool.and_eq_true] at h
        obtain ⟨⟨⟨hd, hds⟩, _⟩, _⟩ := h
        simp only [cleanPhone, List.head?]
        rw [if_neg (by simp [hc])]
        congr 1
        apply filter_eq_self_of_all
        rw [List.all_eq_true]
        intro a ha
        simp only [List.mem_cons] at ha
        rcases ha with rfl | ha
        · simp [isDigit_of_nonzero hd]
        · simp [List.all_eq_true.mp hds a ha]

/-- C3 counterexample: validation does not accept the phone "+1 234-567":
since the pattern constraint runs before the normalizing validator, a phone
containing spaces and dashes is rejected outright, and the whole creation
input of the round-trip example fails validation. -/
theorem C3_counterexample :
    accepts (phoneField (some "+1 234-567")) = false ∧
    matchesPhonePattern "+1 234-567" = false ∧
    accepts (validateClientCreate ⟨some "Егор", none, some "e@mail.com", some "+1 234-567"⟩) =
      false := by
  exact ⟨rfl, rfl, rfl⟩

/-- C3 amended: a phone, if present, must match the international pattern
before normalization, with a validation_error on mismatch — in particular a
phone string containing extraneous characters (spaces, dashes) is rejected,
not accepted; on every accepted phone the normalization step of
`validate_phone` is the identity (there are no extraneous characters left
to strip), so the normalized result still matches the pattern. -/
theorem C3_amended (s : String) :
    (matchesPhonePattern s = false → accepts (phoneField (some s)) = false) ∧
    (matchesPhonePattern s = true →
      phoneField (some s) = .ok (some s) ∧ cleanPhone s = s ∧
      matchesPhonePattern (cleanPhone s) = true) := by
  constructor
  · intro h
    simp [phoneField, h, accepts]
  · intro h
    have hid := cleanPhone_id_of_pattern s h
    have hne : s ≠ "" := by
      intro he
      rw [he] at h
      exact absurd h (by decide)
    refine ⟨?_, hid, by rw [hid]; exact h⟩
    simp [phoneField, h, validate_phone, hid, hne]

/-- C3 witness: the amended statement applied to "+1 234-567" (rejected) and
to "+1234567" (accepted unchanged). -/
theorem C3_witness :
    accepts (phoneField (some "+1 234-567")) = false ∧
    (phoneField (some "+1234567") = .ok (some "+1234567") ∧
      cleanPhone "+1234567" = "+1234567" ∧
      matchesPhonePattern (cleanPhone "+1234567") = true) :=
  ⟨(C3_amended "+1 234-567").1 (by decide), (C3_amended "+1234567").2 (by decide)⟩

/-- C4: a creation call whose upstream HTTP status is successful but whose
JSON body has `success: false` with an `errorMsg` string and an `errors`
object yields a `retailcrm_error` whose message is exactly the prefix
"Ошибка при создании клиента: " followed by the upstream message, with the
errors object inside `details.errors`. -/
theorem C4_domain_failure (c : ClientCreate) (st : Nat) (x : String) (errs : Json)
    (hst : is2xx st = true) (he : c.email ≠ "") (hf : c.first_name ≠ "") :
    create_client_validated c
      (.response st (some (.obj [("success", .bool false), ("errorMsg", .str x),
                                 ("errors", errs)]))) =
      .httpError st (.obj [("error", .str "retailcrm_error"),
                           ("message", .str ("Ошибка при создании клиента: " ++ x)),
                           ("details", .obj [("errors", errs)])]) := by
  simp [create_client_validated, create_customer, hst, he, hf, truthyOpt,
        Json.get, Json.getD, lookupField, Json.truthy, Json.pyStr]

/-- C4 witness: the upstream reply from the spec's example, at HTTP 200. -/
theorem C4_witness :
    create_client_validated clientRoundtrip
      (.response 200 (some (.obj [("success", .bool false), ("errorMsg", .str "X"),
                                  ("errors", .obj [("email", .str "taken")])]))) =
      .httpError 200 (.obj [("error", .str "retailcrm_error"),
                            ("message", .str "Ошибка при создании клиента: X"),
                            ("details", .obj [("errors", .obj [("email", .str "taken")])])]) :=
  C4_domain_failure clientRoundtrip 200 "X" (.obj [("email", .str "taken")])
    (by decide) (by decide) (by decide)

/-- C6: a timeout of the single outbound call makes the listing endpoint
reply HTTP 504 carrying exactly the fixed timeout message, and the creation
endpoint reply HTTP 504 carrying the fixed timeout message behind the
creation prefix; each handler is a function of one `UpstreamOutcome`, so
by construction no second call (no retry) occurs. -/
theorem C6_timeout (c : ClientCreate) (name email : Option String) (d : Option Date)
    (limit page : Nat) (he : c.email ≠ "") (hf : c.first_name ≠ "") :
    get_clients name email d limit page .timeout =
      .httpError 504 (.obj [("error", .str "retailcrm_error"),
                            ("message", .str "Таймаут соединения с RetailCRM"),
                            ("details", .obj [])]) ∧
    create_client_validated c .timeout =
      .httpError 504 (.obj [("error", .str "retailcrm_error"),
                            ("message", .str ("Ошибка при создании клиента: " ++
                                              "Таймаут соединения с RetailCRM")),
                            ("details", .obj [])]) := by
  constructor
  · rfl
  · simp [create_client_validated, create_customer, he, hf, Json.pyStr]

/-- C6 witness: the timeout statement at a concrete request. -/
theorem C6_witness :
    get_clients none none none 20 1 .timeout =
      .httpError 504 (.obj [("error", .str "retailcrm_error"),
                            ("message", .str "Таймаут соединения с RetailCRM"),
                            ("details", .obj [])]) ∧
    create_client_validated clientRoundtrip .timeout =
      .httpError 504 (.obj [("error", .str "retailcrm_error"),
                            ("message", .str ("Ошибка при создании клиента: " ++
                                              "Таймаут соединения с RetailCRM")),
                            ("details", .obj [])]) :=
  C6_timeout clientRoundtrip none none none 20 1 (by decide) (by decide)

/-- C8: a successful listing reply is the envelope
`(success, data.customers, data.pagination, meta.total, meta.page,
meta.limit)` where customers and pagination are the upstream values
unmodified, total is the length of the customers array, and page and limit
echo the request. -/
theorem C8_listing_envelope (name email : Option String) (d : Option Date)
    (limit page st : Nat) (customers : List Json) (pagination : Json)
    (hst : is2xx st = true) :
    get_clients name email d limit page
      (.response st (some (.obj [("success", .bool true), ("customers", .arr customers),
                                 ("pagination", pagination)]))) =
      .ok 200 (.obj [("success", .bool true),
                     ("data", .obj [("customers", .arr customers),
                                    ("pagination", pagination)]),
                     ("meta", .obj [("total", .num (customers.length : Int)),
                                    ("page", .num (page : Int)),
                                    ("limit", .num (limit : Int))])]) := by
  simp [get_clients, fetch_customers, hst, truthyOpt, Json.get, Json.getD,
        lookupField, Json.truthy, pyLen]

/-- C8 witness: a concrete successful listing with one customer. -/
theorem C8_witness :
    get_clients (some "Егор") none none 20 1
      (.response 200 (some (.obj [("success", .bool true),
                                  ("customers", .arr [.obj [("id", .num 12345)]]),
                                  ("pagination", .obj [("totalCount", .num 1)])]))) =
      .ok 200 (.obj [("success", .bool true),
                     ("data", .obj [("customers", .arr [.obj [("id", .num 12345)]]),
                                    ("pagination", .obj [("totalCount", .num 1)])]),
                     ("meta", .obj [("total", .num 1), ("page", .num 1),
                                    ("limit", .num 20)])]) :=
  C8_listing_envelope (some "Егор") none none 20 1 200 [.obj [("id", .num 12345)]]
    (.obj [("totalCount", .num 1)]) (by decide)

/-- An entry of an `optFilter` section carries that section's key. -/
theorem mem_optFilter {key : String} {s : Option String} {k v : String}
    (h : (k, v) ∈ optFilter key s) : k = key := by
  rcases s with _ | n
  · simp [optFilter] at h
  · by_cases hn : n = ""
    · simp [optFilter, hn] at h
    · simp [optFilter, hn] at h
      exact h.1

/-- `build_customer_filters` with a present date, unfolded. -/
theorem build_filters_some_date (name email : Option String) (d : Date) :
    build_customer_filters name email (some d) =
    optFilter "name" name ++ optFilter "email" email ++
      [("dateFrom", d.isoformat), ("dateTo", d.isoformat)] := rfl

/-- `build_customer_filters` with an absent date, unfolded. -/
theorem build_filters_none_date (name email : Option String) :
    build_customer_filters name email none =
    optFilter "name" name ++ optFilter "email" email := by
  simp [build_customer_filters]

/-- Every emitted listing query parameter is `limit`, `page`, one of the two
string filters, or a date filter; a date filter occurs only when
`created_at` is present, and then carries its ISO form. -/
theorem mem_listing_params_cases (name email : Option String) (created_at : Option Date)
    (limit page : Nat) (k v : String)
    (h : (k, v) ∈ listingRequestParams name email created_at limit page) :
    k = "limit" ∨ k = "page" ∨ k = "filter[name]" ∨ k = "filter[email]" ∨
    ((k = "filter[dateFrom]" ∨ k = "filter[dateTo]") ∧
      ∃ dd, created_at = some dd ∧ v = dd.isoformat) := by
  simp only [listingRequestParams, fetchParams] at h
  rcases List.mem_append.mp h with h | h
  · simp only [List.mem_cons, List.mem_singleton, List.not_mem_nil, or_false] at h
    rcases h with h | h
    · exact Or.inl (congrArg Prod.fst h)
    · exact Or.inr (Or.inl (congrArg Prod.fst h))
  · obtain ⟨⟨k0, v0⟩, hmem, heq⟩ := List.mem_map.mp h
    injection heq with h1 h2
    rcases created_at with _ | dd
    · rw [build_filters_none_date] at hmem
      rcases List.mem_append.mp hmem with hn | he2
      · rw [mem_optFilter hn] at h1
        exact Or.inr (Or.inr (Or.inl h1.symm))
      · rw [mem_optFilter he2] at h1
        exact Or.inr (Or.inr (Or.inr (Or.inl h1.symm)))
    · rw [build_filters_some_date] at hmem
      rcases List.mem_append.mp hmem with hm | hdate
      · rcases List.mem_append.mp hm with hn | he2
        · rw [mem_optFilter hn] at h1
          exact Or.inr (Or.inr (Or.inl h1.symm))
        · rw [mem_optFilter he2] at h1
          exact Or.inr (Or.inr (Or.inr (Or.inl h1.symm)))
      · simp only [List.mem_cons, List.mem_singleton, List.not_mem_nil, or_false,
                   Prod.mk.injEq] at hdate
        rcases hdate with ⟨hk0, hv0⟩ | ⟨hk0, hv0⟩
        · rw [hk0] at h1
          exact Or.inr (Or.inr (Or.inr (Or.inr ⟨Or.inl h1.symm, dd, rfl, h2.symm.trans hv0⟩)))
        · rw [hk0] at h1
          exact Or.inr (Or.inr (Or.inr (Or.inr ⟨Or.inr h1.symm, dd, rfl, h2.symm.trans hv0⟩)))

/-- C5: a listing filter with a created_at date D emits both
`filter[dateFrom]=D` and `filter[dateTo]=D` (the ISO form of D); every
other parameter is `limit`, `page`, `filter[name]` or `filter[email]`, so
there is no other date parameter; and with created_at absent no date
parameter at all is emitted. -/
theorem C5_date_range (name email : Option String) (d : Date) (limit page : Nat) :
    ("filter[dateFrom]", d.isoformat) ∈ listingRequestParams name email (some d) limit page ∧
    ("filter[dateTo]", d.isoformat) ∈ listingRequestParams name email (some d) limit page ∧
    (∀ k v, (k, v) ∈ listingRequestParams name email (some d) limit page →
      k = "limit" ∨ k = "page" ∨ k = "filter[name]" ∨ k = "filter[email]" ∨
      k = "filter[dateFrom]" ∨ k = "filter[dateTo]") ∧
    (∀ k v, (k, v) ∈ listingRequestParams name email none limit page →
      k = "limit" ∨ k = "page" ∨ k = "filter[name]" ∨ k = "filter[email]") := by
  refine ⟨?_, ?_, ?_, ?_⟩
  · show _ ∈ [("limit", toString limit), ("page", toString page)] ++
      (build_customer_filters name email (some d)).map
        (fun kv => ("filter[" ++ kv.1 ++ "]", kv.2))
    apply List.mem_append_right
    apply List.mem_map.mpr
    refine ⟨("dateFrom", d.isoformat), ?_, rfl⟩
    rw [build_filters_some_date]
    apply List.mem_append_right
    simp
  · show _ ∈ [("limit", toString limit), ("page", toString page)] ++
      (build_customer_filters name email (some d)).map
        (fun kv => ("filter[" ++ kv.1 ++ "]", kv.2))
    apply List.mem_append_right
    apply List.mem_map.mpr
    refine ⟨("dateTo", d.isoformat), ?_, rfl⟩
    rw [build_filters_some_date]
    apply List.mem_append_right
    simp
  · intro k v h
    rcases mem_listing_params_cases name email (some d) limit page k v h with
      h | h | h | h | ⟨h, -⟩
    · exact Or.inl h
    · exact Or.inr (Or.inl h)
    · exact Or.inr (Or.inr (Or.inl h))
    · exact Or.inr (Or.inr (Or.inr (Or.inl h)))
    · rcases h with h | h
      · exact Or.inr (Or.inr (Or.inr (Or.inr (Or.inl h))))
      · exact Or.inr (Or.inr (Or.inr (Or.inr (Or.inr h))))
  · intro k v h
    rcases mem_listing_params_cases name email none limit page k v h with
      h | h | h | h | ⟨-, dd, hdd, -⟩
    · exact Or.inl h
    · exact Or.inr (Or.inl h)
    · exact Or.inr (Or.inr (Or.inl h))
    · exact Or.inr (Or.inr (Or.inr h))
    · exact Option.noConfusion hdd

/-- C5 witness: the date-range statement at a concrete filter. -/
theorem C5_witness :
    ("filter[dateFrom]", Date.isoformat ⟨2025, 12, 15⟩) ∈
      listingRequestParams (some "Егор") none (some ⟨2025, 12, 15⟩) 20 1 ∧
    ("filter[dateFrom]" = "limit" ∨ "filter[dateFrom]" = "page" ∨
      "filter[dateFrom]" = "filter[name]" ∨ "filter[dateFrom]" = "filter[email]" ∨
      "filter[dateFrom]" = "filter[dateFrom]" ∨ "filter[dateFrom]" = "filter[dateTo]") :=
  ⟨(C5_date_range (some "Егор") none ⟨2025, 12, 15⟩ 20 1).1,
   (C5_date_range (some "Егор") none ⟨2025, 12, 15⟩ 20 1).2.2.1
     "filter[dateFrom]" "2025-12-15" (by decide)⟩

/-- The head of `dropWhile p l`, when present, does not satisfy `p`. -/
theorem head_dropWhile_false {α : Type} {p : α → Bool} :
    ∀ (l : List α) (c : α), (l.dropWhile p).head? = some c → p c = false := by
  intro l
  induction l with
  | nil =>
      intro c h
      simp [List.dropWhile] at h
  | cons x xs ih =>
      intro c h
      rw [List.dropWhile_cons] at h
      by_cases hx : p x
      · rw [if_pos hx] at h
        exact ih c h
      · rw [if_neg hx] at h
        simp only [List.head?_cons, Option.some.injEq] at h
        rw [← h]
        exact Bool.eq_false_iff.mpr hx

/-- The result of `pyStrip` has no leading and no trailing whitespace. -/
theorem pyStrip_no_surrounding (s : String) :
    (∀ c, (pyStrip s).data.head? = some c → isPySpace c = false) ∧
    (∀ c, (pyStrip s).data.getLast? = some c → isPySpace c = false) := by
  have hdata : (pyStrip s).data =
      List.rdropWhile isPySpace (List.dropWhile isPySpace s.data) := rfl
  constructor
  · intro c hc
    rw [hdata] at hc
    obtain ⟨r, hr⟩ := List.rdropWhile_prefix isPySpace (List.dropWhile isPySpace s.data)
    cases ht : List.rdropWhile isPySpace (List.dropWhile isPySpace s.data) with
    | nil => rw [ht] at hc; exact Option.noConfusion hc
    | cons a ts =>
        rw [ht] at hc
        simp only [List.head?_cons, Option.some.injEq] at hc
        rw [ht] at hr
        have hm : (List.dropWhile isPySpace s.data).head? = some a := by
          rw [← hr]; rfl
        rw [← hc]
        exact head_dropWhile_false s.data a hm
  · intro c hc
    rw [hdata] at hc
    by_cases hne : List.rdropWhile isPySpace (List.dropWhile isPySpace s.data) = []
    · rw [hne] at hc; exact Option.noConfusion hc
    · rw [List.getLast?_eq_getLast _ hne] at hc
      simp only [Option.some.injEq] at hc
      have hlast := List.rdropWhile_last_not isPySpace (List.dropWhile isPySpace s.data) hne
      rw [hc] at hlast
      exact Bool.eq_false_iff.mpr hlast

/-- C7: a first_name consisting only of whitespace is rejected — the whole
creation request fails request validation with HTTP 422 and no outbound
call is consulted; an accepted first_name is returned stripped of
surrounding whitespace (the stripped value, non-empty, with no leading or
trailing whitespace character). -/
theorem C7_whitespace_first_name (s : String) (ln em ph : Option String) (o : UpstreamOutcome) :
    (s.data.all isPySpace = true →
      accepts (firstNameField (some s)) = false ∧
      (create_client ⟨some s, ln, em, ph⟩ o).isValidationFailure = true ∧
      (create_client ⟨some s, ln, em, ph⟩ o).statusOf = 422) ∧
    (∀ t, firstNameField (some s) = .ok t →
      t = pyStrip s ∧ t ≠ "" ∧
      (∀ c, t.data.head? = some c → isPySpace c = false) ∧
      (∀ c, t.data.getLast? = some c → isPySpace c = false)) := by
  constructor
  · intro hws
    have hstrip : pyStrip s = "" := by
      have h1 : List.dropWhile isPySpace s.data = [] :=
        List.dropWhile_eq_nil_iff.mpr (fun x hx => List.all_eq_true.mp hws x hx)
      show String.mk (((s.data.dropWhile isPySpace).reverse.dropWhile isPySpace).reverse) = ""
      rw [h1]
      rfl
    have haf : accepts (firstNameField (some s)) = false := by
      simp only [firstNameField]
      split_ifs with h1 h2
      · rfl
      · rfl
      · simp [validate_first_name, hstrip, accepts]
    refine ⟨haf, ?_, ?_⟩ <;>
    · cases hval : firstNameField (some s) with
      | ok t => rw [hval] at haf; simp [accepts] at haf
      | error e =>
          have hvc : validateClientCreate ⟨some s, ln, em, ph⟩ = .error e := by
            simp only [validateClientCreate]
            rw [hval]
            rfl
          simp [create_client, hvc, Response.isValidationFailure, Response.statusOf]
  · intro t ht
    simp only [firstNameField] at ht
    split_ifs at ht with h1 h2
    simp only [validate_first_name] at ht
    split_ifs at ht with h3
    injection ht with ht
    rw [← ht]
    exact ⟨rfl, h3, (pyStrip_no_surrounding s).1, (pyStrip_no_surrounding s).2⟩

/-- C7 witness: a whitespace-only first_name is rejected with a 422
validation failure; the accepted first_name " Egor " comes back stripped. -/
theorem C7_witness :
    (accepts (firstNameField (some "   ")) = false ∧
     (create_client ⟨some "   ", none, some "a@b.com", none⟩ .timeout).isValidationFailure =
       true ∧
     (create_client ⟨some "   ", none, some "a@b.com", none⟩ .timeout).statusOf = 422) ∧
    ("Egor" = pyStrip " Egor " ∧ "Egor" ≠ "") :=
  ⟨(C7_whitespace_first_name "   " none (some "a@b.com") none .timeout).1 (by decide),
   ⟨((C7_whitespace_first_name " Egor " none none none .timeout).2 "Egor" (by decide)).1,
    ((C7_whitespace_first_name " Egor " none none none .timeout).2 "Egor" (by decide)).2.1⟩⟩

/-- A first_name accepted by its pipeline is non-empty. -/
theorem firstNameField_ok_ne {x : Option String} {fn : String}
    (h : firstNameField x = .ok fn) : fn ≠ "" := by
  match x with
  | none => exact Except.noConfusion h
  | some s =>
      simp only [firstNameField] at h
      split_ifs at h with h1 h2
      simp only [validate_first_name] at h
      split_ifs at h with h3
      injection h with h
      exact h ▸ h3

/-- An email accepted by its pipeline is non-empty. -/
theorem emailField_ok_ne {x : Option String} {em : String}
    (h : emailField x = .ok em) : em ≠ "" := by
  match x with
  | none => exact Except.noConfusion h
  | some s =>
      simp only [emailField] at h
      split_ifs at h with h1
      injection h with h
      intro he
      rw [h, he] at h1
      exact absurd h1 (by decide)

/-- C9: every validated `ClientCreate` has a non-empty first_name and a
non-empty email, the creation endpoint on validated data runs the
post-validation handler body, and the in-handler 422 branch for missing
email/first_name is never its result — validation failures short-circuit
before the outbound call, so the branch is unreachable. -/
theorem C9_validated_invariant (raw : RawClient) (c : ClientCreate) (o : UpstreamOutcome)
    (h : validateClientCreate raw = .ok c) :
    c.first_name ≠ "" ∧ c.email ≠ "" ∧
    create_client raw o = create_client_validated c o ∧
    create_client raw o ≠ requiredFieldsResponse := by
  cases hfn : firstNameField raw.first_name with
  | error e =>
      rw [show validateClientCreate raw =
        (firstNameField raw.first_name >>= fun fn =>
          lastNameField raw.last_name >>= fun ln =>
          emailField raw.email >>= fun em =>
          phoneField raw.phone >>= fun ph => .ok ⟨fn, ln, em, ph⟩) from rfl, hfn] at h
      exact Except.noConfusion h
  | ok fn =>
  cases hln : lastNameField raw.last_name with
  | error e =>
      rw [show validateClientCreate raw =
        (firstNameField raw.first_name >>= fun fn =>
          lastNameField raw.last_name >>= fun ln =>
          emailField raw.email >>= fun em =>
          phoneField raw.phone >>= fun ph => .ok ⟨fn, ln, em, ph⟩) from rfl, hfn, hln] at h
      exact Except.noConfusion h
  | ok ln =>
  cases hem : emailField raw.email with
  | error e =>
      rw [show validateClientCreate raw =
        (firstNameField raw.first_name >>= fun fn =>
          lastNameField raw.last_name >>= fun ln =>
          emailField raw.email >>= fun em =>
          phoneField raw.phone >>= fun ph => .ok ⟨fn, ln, em, ph⟩) from rfl, hfn, hln, hem] at h
      exact Except.noConfusion h
  | ok em =>
  cases hph : phoneField raw.phone with
  | error e =>
      rw [show validateClientCreate raw =
        (firstNameField raw.first_name >>= fun fn =>
          lastNameField raw.last_name >>= fun ln =>
          emailField raw.email >>= fun em =>
          phoneField raw.phone >>= fun ph => .ok ⟨fn, ln, em, ph⟩) from rfl,
        hfn, hln, hem, hph] at h
      exact Except.noConfusion h
  | ok ph =>
      have hv : validateClientCreate raw = .ok ⟨fn, ln, em, ph⟩ := by
        rw [show validateClientCreate raw =
          (firstNameField raw.first_name >>= fun fn =>
            lastNameField raw.last_name >>= fun ln =>
            emailField raw.email >>= fun em =>
            phoneField raw.phone >>= fun ph => .ok ⟨fn, ln, em, ph⟩) from rfl,
          hfn, hln, hem, hph]
        rfl
      have hc : c = ⟨fn, ln, em, ph⟩ := by
        rw [hv] at h
        injection h with h
        exact h.symm
      subst hc
      have hne : ¬((⟨fn, ln, em, ph⟩ : ClientCreate).email = "" ∨
          (⟨fn, ln, em, ph⟩ : ClientCreate).first_name = "") := by
        rintro (hx | hx)
        · exact emailField_ok_ne hem hx
        · exact firstNameField_ok_ne hfn hx
      refine ⟨firstNameField_ok_ne hfn, emailField_ok_ne hem, ?_, ?_⟩
      · simp only [create_client, hv]
      · simp only [create_client, hv]
        simp only [create_client_validated]
        rw [if_neg hne]
        cases hcc : create_customer ⟨fn, ln, em, ph⟩ o with
        | ok r => exact fun hcontra => Response.noConfusion hcontra
        | crmError e2 => intro hcontra; simp [requiredFieldsResponse] at hcontra
        | uncaught => intro hcontra; simp [requiredFieldsResponse] at hcontra

/-- C9 witness: the invariant at the concrete validated round-trip input. -/
theorem C9_witness :
    clientRoundtrip.first_name ≠ "" ∧ clientRoundtrip.email ≠ "" ∧
    create_client rawRoundtripClean .timeout =
      create_client_validated clientRoundtrip .timeout ∧
    create_client rawRoundtripClean .timeout ≠ requiredFieldsResponse :=
  C9_validated_invariant rawRoundtripClean clientRoundtrip .timeout (by decide)

/-- C10: a present-but-empty `name` or `email` query parameter is treated
exactly as an absent one by the filter builder, and the emitted outbound
query contains no `filter[name]` or `filter[email]` parameter for
empty-string inputs. -/
theorem C10_empty_string_filters (name email : Option String) (d : Option Date)
    (limit page : Nat) :
    build_customer_filters (some "") email d = build_customer_filters none email d ∧
    build_customer_filters name (some "") d = build_customer_filters name none d ∧
    (∀ v, ("filter[name]", v) ∉ listingRequestParams (some "") (some "") d limit page) ∧
    (∀ v, ("filter[email]", v) ∉ listingRequestParams (some "") (some "") d limit page) := by
  have hbuild : ∀ k0 v0, (k0, v0) ∈ build_customer_filters (some "") (some "") d →
      k0 = "dateFrom" ∨ k0 = "dateTo" := by
    intro k0 v0 hmem
    rcases d with _ | dd
    · rw [build_filters_none_date] at hmem
      rcases List.mem_append.mp hmem with hn | hn <;> simp [optFilter] at hn
    · rw [build_filters_some_date] at hmem
      rcases List.mem_append.mp hmem with hm | hdate
      · rcases List.mem_append.mp hm with hn | hn <;> simp [optFilter] at hn
      · simp only [List.mem_cons, List.mem_singleton, List.not_mem_nil, or_false,
                   Prod.mk.injEq] at hdate
        rcases hdate with ⟨hk0, -⟩ | ⟨hk0, -⟩
        · exact Or.inl hk0
        · exact Or.inr hk0
  have hnone : ∀ bad : String, bad = "filter[name]" ∨ bad = "filter[email]" →
      ∀ v, (bad, v) ∉ listingRequestParams (some "") (some "") d limit page := by
    intro bad hbad v h
    simp only [listingRequestParams, fetchParams] at h
    rcases List.mem_append.mp h with h | h
    · simp only [List.mem_cons, List.mem_singleton, List.not_mem_nil, or_false] at h
      rcases hbad with rfl | rfl <;> rcases h with h | h <;>
        (injection h with h1 h2; exact absurd h1 (by decide))
    · obtain ⟨⟨k0, v0⟩, hmem, heq⟩ := List.mem_map.mp h
      injection heq with h1 h2
      have h1a : "filter[" ++ k0 ++ "]" = bad := h1
      rcases hbuild k0 v0 hmem with rfl | rfl <;> rcases hbad with rfl | rfl <;>
        exact absurd h1a (by decide)
  refine ⟨?_, ?_, hnone "filter[name]" (Or.inl rfl), hnone "filter[email]" (Or.inr rfl)⟩
  · simp [build_customer_filters, optFilter]
  · simp [build_customer_filters, optFilter]

/-- C10 witness: the empty-string statement at a concrete request. -/
theorem C10_witness :
    build_customer_filters (some "") none none = build_customer_filters none none none ∧
    ("filter[name]", "x") ∉ listingRequestParams (some "") (some "") none 20 1 ∧
    ("filter[email]", "x") ∉ listingRequestParams (some "") (some "") none 20 1 :=
  ⟨(C10_empty_string_filters none none none 20 1).1,
   (C10_empty_string_filters none none none 20 1).2.2.1 "x",
   (C10_empty_string_filters none none none 20 1).2.2.2 "x"⟩

end RetailCRM
